import Mathlib

/-
  Verification development for bedrock/contentful/api.py.

  Shallow embedding notes:
  * CMS field values and template-facing output values share one inductive
    type `Val`; Python dictionaries become association lists in insertion
    order, Python None becomes `Val.null`, absent fields become `Option.none`.
  * A resolved entry link is `Val.ref id`; its `.fields()` and `.sys`
    accessors go through the world `St`, an association list from entry id
    to `Entry` that models the space visible through the CMS client.
  * An image asset is collapsed to its protocol-relative url string: the
    access path fields()["file"]["url"] and the `.url(w, h, fit, f)` builder
    both start from that one string.
  * Fallible Python expressions (required subscripts, attribute access on
    None, iteration over None, rendering a non-document) return
    `Except Err _` with an `Err` constructor named after the Python
    exception class they raise.
  * The third-party rich-text renderer is opaque; it is modelled by a fixed
    tagging function `render`, and invoking it on anything that is not a
    rich-text document is the error `Err.typeError`.
  * Python round on these inputs is round-half-to-even; `pyRound` models it
    on exact rationals.
-/

inductive Val where
  | str (s : String)
  | bool (b : Bool)
  | null
  | richText (doc : String)
  | ref (id : String)
  | refList (ids : List String)
  | image (url : String)
  | vdict (d : List (String × Val))
  | vlist (xs : List Val)

abbrev Dict := List (String × Val)

structure Entry where
  contentType : String
  fields : Dict

abbrev St := List (String × Entry)

inductive Err where
  | notFound
  | keyError
  | attrError
  | typeError
deriving DecidableEq

/-- Python dict lookup d.get(k): first binding of k, if any. -/
def getV : Dict → String → Option Val
  | [], _ => none
  | (k', v') :: rest, k => if k' == k then some v' else getV rest k

/-- Python dict assignment d[k] = v: replace in place, else append. -/
def setV : Dict → String → Val → Dict
  | [], k, v => [(k, v)]
  | (k', v') :: rest, k, v =>
      if k' == k then (k', v) :: rest else (k', v') :: setV rest k v

/-- client.entry(id): resolve an entry id in the world. -/
def lookupE (st : St) (id : String) : Except Err Entry :=
  match st.find? (fun p => p.1 == id) with
  | some p => .ok p.2
  | none => .error .notFound

/-- A fields.get(k) result used directly as a dict value: None when absent. -/
def optVal (v : Option Val) : Val := v.getD .null

/-- Python truthiness of an optional field value. -/
def truthy : Option Val → Bool
  | none => false
  | some .null => false
  | some (.str s) => !(s == "")
  | some (.bool b) => b
  | some (.richText _) => true
  | some (.ref _) => true
  | some (.refList ids) => !ids.isEmpty
  | some (.image _) => true
  | some (.vdict d) => !d.isEmpty
  | some (.vlist xs) => !xs.isEmpty

/-- The opaque rich-text renderer: render(document) for a document value. -/
def render (doc : String) : String := "<p>" ++ doc ++ "</p>"

/-- renderer.render(v) on an arbitrary field value: only a rich-text
document renders; anything else (None included) raises inside the
renderer. -/
def renderCall : Option Val → Except Err String
  | some (.richText doc) => .ok (render doc)
  | _ => .error .typeError

/-- The guarded body idiom: render(v) if v else the empty string. -/
def bodyRender (v : Option Val) : Except Err String :=
  if truthy v then renderCall v else .ok ""

/-- value.id on an optional field value: only an entry link has .id. -/
def asRefId : Option Val → Except Err String
  | some (.ref i) => .ok i
  | _ => .error .attrError

/-- value.fields() on an optional field value holding an entry link. -/
def refFields (st : St) : Option Val → Except Err Dict
  | some (.ref i) =>
      match lookupE st i with
      | .error e => .error e
      | .ok e2 => .ok e2.fields
  | _ => .error .attrError

/-- Iterating a field value as a list of entry links: anything else raises
TypeError. -/
def asRefIds : Option Val → Except Err (List String)
  | some (.refList ids) => .ok ids
  | _ => .error .typeError

-- Static lookup tables of the module, verbatim.

def ASPECT_RATIOS : List (String × String) :=
  [("1:1", "1-1"), ("3:2", "3-2"), ("16:9", "16-9")]

/-- The multiplier table, each decimal literal of the source kept as the
exact fraction its digits denote: 1, 0.6666 and 0.5625. -/
def ASPECT_MULTIPLIER : List (String × (ℤ × ℤ)) :=
  [("1:1", (1, 1)), ("3:2", (6666, 10000)), ("16:9", (5625, 10000))]

def PRODUCT_THEMES : List (String × String) :=
  [("Firefox", "firefox"), ("Firefox Beta", "beta"),
   ("Firefox Developer", "developer"), ("Firefox Nightly", "nightly")]

def WIDTHS : List (String × String) :=
  [("Extra Small", "xs"), ("Small", "sm"), ("Medium", "md"),
   ("Large", "lg"), ("Extra Large", "xl")]

def LAYOUT_CLASS : List (String × String) :=
  [("layout2Cards", "mzp-l-card-half"), ("layout3Cards", "mzp-l-card-third"),
   ("layout4Cards", "mzp-l-card-quarter"), ("layout5Cards", "mzp-l-card-hero")]

/-- Python dict .get on a string-keyed table. -/
def dget (tbl : List (String × String)) (k : String) : Option String :=
  (tbl.find? (fun p => p.1 == k)).map (fun p => p.2)

/-- Python dict .get where the key is a duck-typed optional field value:
any key that is not one of the string keys of the table takes the
default. -/
def dgetO (tbl : List (String × String)) (k : Option Val) (dflt : String) : String :=
  match k with
  | some (.str s) => (dget tbl s).getD dflt
  | _ => dflt

/-- The Python round builtin on an exact rational: round half to even. -/
def pyRound (q : ℚ) : ℤ :=
  let f := Int.floor q
  let r := q - (f : ℚ)
  if r < 1/2 then f
  else if 1/2 < r then f + 1
  else if f % 2 = 0 then f else f + 1

/-- Round half to even of the fraction n / d, for d positive, in integer
arithmetic; the theorem pyRoundFrac_eq_pyRound below identifies it with
pyRound of the rational n / d. -/
def pyRoundFrac (n d : ℤ) : ℤ :=
  let f := Int.fdiv n d
  let r2 := 2 * (n - f * d)
  if r2 < d then f
  else if d < r2 then f + 1
  else if f % 2 = 0 then f else f + 1

/-- ASPECT_MULTIPLIER.get(aspect, 0) with a duck-typed key; the default 0
is the fraction 0 / 1. -/
def amGet (k : Option Val) : ℤ × ℤ :=
  match k with
  | some (.str s) =>
    ((ASPECT_MULTIPLIER.find? (fun p => p.1 == s)).map (fun p => p.2)).getD (0, 1)
  | _ => (0, 1)

/-- round(width * ASPECT_MULTIPLIER.get(aspect, 0)): the product of the
integer width and the multiplier num / den is the exact fraction
(width * num) / den, rounded the way the Python round builtin rounds. -/
def _get_height (width : ℤ) (aspect : Option Val) : ℤ :=
  pyRoundFrac (width * (amGet aspect).1) (amGet aspect).2

/-- The asset url builder: image.url(w, h, fit, f) prefixed with the
explicit scheme. The third-party builder is modelled as the base url plus
the query string it constructs. -/
def _get_image_url (image : String) (width : ℤ) (aspect : Option Val) : String :=
  "https:" ++ image ++ "?w=" ++ toString width ++ "&h=" ++
    toString (_get_height width aspect) ++ "&fit=fill&f=faces"

def _get_product_class (product : Option Val) : String :=
  "mzp-t-product-" ++ dgetO PRODUCT_THEMES product ""

def _get_layout_class (layout : String) : String :=
  (dget LAYOUT_CLASS layout).getD ""

def _get_abbr_from_width (width : String) : String :=
  (dget WIDTHS width).getD ""

def _get_aspect_ratio_class (aspect : Option Val) : String :=
  "mzp-has-aspect-" ++ dgetO ASPECT_RATIOS aspect ""

def _get_width_class (width : String) : String :=
  "mzp-t-content-" ++ _get_abbr_from_width width

def _get_theme_class (theme : Option Val) : String :=
  match theme with
  | some (.str s) => if s == "Dark" then "mzp-t-dark" else ""
  | _ => ""

-- ContentfulPage methods. Every method takes the world st (the entries the
-- configured client can resolve) in place of self.client.

/-- ContentfulPage.get_info_data(fields). -/
def get_info_data (fields : Dict) : Except Err Dict :=
  match getV fields "preview_title" with
  | none => .error .keyError
  | some title =>
    match getV fields "preview_blurb" with
    | none => .error .keyError
    | some blurb =>
      let base : Dict :=
        [("title", title), ("blurb", blurb),
         ("slug", (getV fields "slug").getD (.str "home"))]
      match getV fields "preview_image" with
      | none => .ok base
      | some (.image u) => .ok (base ++ [("image", .str ("https:" ++ u))])
      | some _ => .error .attrError

/-- ContentfulPage.get_page_data(page_id): full page data, the mapping with
page_type, info and the complete fields mapping. -/
def get_page_data (st : St) (page_id : String) : Except Err Dict :=
  match lookupE st page_id with
  | .error e => .error e
  | .ok page =>
    match get_info_data page.fields with
    | .error e => .error e
    | .ok info =>
      .ok [("page_type", .str page.contentType),
           ("info", .vdict info),
           ("fields", .vdict page.fields)]

/-- The ids the client.entries query with content_type pageVersatile
returns, in world order. -/
def pagesList (st : St) : List String :=
  (st.filter (fun p => p.2.contentType == "pageVersatile")).map (fun p => p.1)

/-- The list comprehension over get_page_data in get_all_page_data. -/
def mapPageData (st : St) : List String → Except Err (List Dict)
  | [] => .ok []
  | i :: rest =>
    match get_page_data st i with
    | .error e => .error e
    | .ok d =>
      match mapPageData st rest with
      | .error e => .error e
      | .ok ds => .ok (d :: ds)

/-- ContentfulPage.get_all_page_data(). -/
def get_all_page_data (st : St) : Except Err (List Dict) :=
  mapPageData st (pagesList st)

/-- ContentfulPage.get_page_type(page_id). -/
def get_page_type (st : St) (page_id : String) : Except Err String :=
  match lookupE st page_id with
  | .error e => .error e
  | .ok page => .ok page.contentType

/-- ContentfulPage.get_text_data(value): the rendering is not guarded, the
value goes to the renderer as is. -/
def get_text_data (value : Option Val) : Except Err Dict :=
  match renderCall value with
  | .error e => .error e
  | .ok body =>
    .ok [("component", .str "text"), ("body", .str body),
         ("width_class", .str (_get_width_class "Medium"))]

/-- ContentfulPage.get_cta_data(cta). -/
def get_cta_data (st : St) (cta : Option Val) : Except Err Dict :=
  if truthy cta then
    match asRefId cta with
    | .error e => .error e
    | .ok cta_id =>
      match lookupE st cta_id with
      | .error e => .error e
      | .ok cta_obj =>
        .ok [("component", .str cta_obj.contentType),
             ("label", optVal (getV cta_obj.fields "label")),
             ("action", optVal (getV cta_obj.fields "action")),
             ("size", .str "mzp-t-xl"),
             ("theme", .str "mzp-t-primary"),
             ("include_cta", .bool true)]
  else .ok [("include_cta", .bool false)]

/-- ContentfulPage.get_hero_data(hero_id). -/
def get_hero_data (st : St) (hero_id : String) : Except Err Dict :=
  match lookupE st hero_id with
  | .error e => .error e
  | .ok hero_obj =>
    match getV hero_obj.fields "image" with
    | none => .error .keyError
    | some (.image hero_image_url) =>
      match renderCall (getV hero_obj.fields "body") with
      | .error e => .error e
      | .ok hero_body =>
        match get_cta_data st (getV hero_obj.fields "cta") with
        | .error e => .error e
        | .ok cta =>
          .ok [("component", .str "hero"),
               ("theme_class", .str (_get_theme_class (getV hero_obj.fields "theme"))),
               ("product_class", .str (_get_product_class (getV hero_obj.fields "product_icon"))),
               ("title", optVal (getV hero_obj.fields "heading")),
               ("tagline", optVal (getV hero_obj.fields "tagline")),
               ("body", .str hero_body),
               ("image", .str ("https:" ++ hero_image_url)),
               ("image_position", optVal (getV hero_obj.fields "image_position")),
               ("image_class", .str
                 (match getV hero_obj.fields "image_position" with
                  | some (.str p) => if p == "Left" then "mzp-l-reverse" else ""
                  | _ => "")),
               ("cta", .vdict cta)]
    | some _ => .error .attrError

/-- ContentfulPage.get_section_heading_data(heading_id). -/
def get_section_heading_data (st : St) (heading_id : String) : Except Err Dict :=
  match lookupE st heading_id with
  | .error e => .error e
  | .ok heading_obj =>
    .ok [("component", .str "sectionHeading"),
         ("heading", optVal (getV heading_obj.fields "heading"))]

/-- ContentfulPage.get_callout_data(callout_id). -/
def get_callout_data (st : St) (callout_id : String) : Except Err Dict :=
  match lookupE st callout_id with
  | .error e => .error e
  | .ok config_obj =>
    match asRefId (getV config_obj.fields "component_callout") with
    | .error e => .error e
    | .ok content_id =>
      match lookupE st content_id with
      | .error e => .error e
      | .ok content_obj =>
        match bodyRender (getV content_obj.fields "body") with
        | .error e => .error e
        | .ok content_body =>
          match get_cta_data st (getV content_obj.fields "cta") with
          | .error e => .error e
          | .ok cta =>
            .ok [("component", .str "callout"),
                 ("theme_class", .str (_get_theme_class (getV config_obj.fields "theme"))),
                 ("product_class", .str (_get_product_class (getV content_obj.fields "product_icon"))),
                 ("title", optVal (getV content_obj.fields "heading")),
                 ("body", .str content_body),
                 ("cta", .vdict cta)]

/-- ContentfulPage.get_card_data(card_id, aspect). -/
def get_card_data (st : St) (card_id : String) (aspect : Option Val) : Except Err Dict :=
  match lookupE st card_id with
  | .error e => .error e
  | .ok card_obj =>
    match bodyRender (getV card_obj.fields "body") with
    | .error e => .error e
    | .ok card_body =>
      match getV card_obj.fields "image" with
      | some (.image card_image) =>
        .ok [("component", .str "card"),
             ("heading", optVal (getV card_obj.fields "heading")),
             ("tag", optVal (getV card_obj.fields "tag")),
             ("link", optVal (getV card_obj.fields "link")),
             ("body", .str card_body),
             ("aspect_ratio", .str (_get_aspect_ratio_class aspect)),
             ("highres_image_url", .str (_get_image_url card_image 800 aspect)),
             ("image_url", .str (_get_image_url card_image 800 aspect))]
      | _ => .error .attrError

/-- ContentfulPage.get_large_card_data(card_layout_id, card_id): the image
urls are computed first from the layout-level entry, then the referenced
card is extracted at aspect 16:9, then three keys are overwritten. -/
def get_large_card_data (st : St) (card_layout_id card_id : String) : Except Err Dict :=
  match lookupE st card_layout_id with
  | .error e => .error e
  | .ok large_card_layout =>
    match getV large_card_layout.fields "image" with
    | some (.image large_card_image) =>
      match get_card_data st card_id (some (.str "16:9")) with
      | .error e => .error e
      | .ok card_data =>
        .ok (setV (setV (setV card_data
              "component" (.str "large_card"))
              "highres_image_url" (.str (_get_image_url large_card_image 1860 (some (.str "16:9")))))
              "image_url" (.str (_get_image_url large_card_image 1860 (some (.str "16:9")))))
    | _ => .error .attrError

/-- The loop over the content sequence of a card layout: each entry is
extracted as a card at the aspect passed down from the layout. -/
def mapCards (st : St) (aspect : Option Val) : List String → Except Err (List Dict)
  | [] => .ok []
  | i :: rest =>
    match get_card_data st i aspect with
    | .error e => .error e
    | .ok d =>
      match mapCards st aspect rest with
      | .error e => .error e
      | .ok ds => .ok (d :: ds)

/-- The layout5Cards branch of get_card_layout_data: resolve the id of the
large-card config entry and, through its fields, the id of the card it
references, then extract the large card as the first element of cards. -/
def largeCardFirst (st : St) (config_obj : Entry) : Except Err (List Val) :=
  if config_obj.contentType == "layout5Cards" then
    match asRefId (getV config_obj.fields "large_card") with
    | .error e => .error e
    | .ok cl_id =>
      match refFields st (getV config_obj.fields "large_card") with
      | .error e => .error e
      | .ok lc_fields =>
        match asRefId (getV lc_fields "card") with
        | .error e => .error e
        | .ok c_id =>
          match get_large_card_data st cl_id c_id with
          | .error e => .error e
          | .ok lcd => .ok [Val.vdict lcd]
  else .ok []

/-- ContentfulPage.get_card_layout_data(layout_id). The source builds the
dict with an empty cards list and appends to it; the embedding assembles
the same final list, large card first when the layout is layout5Cards. -/
def get_card_layout_data (st : St) (layout_id : String) : Except Err Dict :=
  match lookupE st layout_id with
  | .error e => .error e
  | .ok config_obj =>
    match largeCardFirst st config_obj with
    | .error e => .error e
    | .ok firstCards =>
      match asRefIds (getV config_obj.fields "content") with
      | .error e => .error e
      | .ok ids =>
        match mapCards st (getV config_obj.fields "aspect_ratio") ids with
        | .error e => .error e
        | .ok rest =>
          .ok [("component", .str "cardLayout"),
               ("layout_class", .str (_get_layout_class config_obj.contentType)),
               ("aspect_ratio", optVal (getV config_obj.fields "aspect_ratio")),
               ("cards", .vlist (firstCards ++ rest.map Val.vdict))]

/-- Appending one component output in front of the rest of a loop result. -/
def consE (v : Val) (r : Except Err (List Val)) : Except Err (List Val) :=
  match r with
  | .error e => .error e
  | .ok xs => .ok (v :: xs)

/-- The pageGeneral branch of get_content: iterate the field mapping in
order and extract the three recognized keys; other keys are skipped. -/
def generalEntries (st : St) : Dict → Except Err (List Val)
  | [] => .ok []
  | (k, v) :: rest =>
    if k == "component_hero" then
      match asRefId (some v) with
      | .error e => .error e
      | .ok hid =>
        match get_hero_data st hid with
        | .error e => .error e
        | .ok d => consE (.vdict d) (generalEntries st rest)
    else if k == "body" then
      match get_text_data (some v) with
      | .error e => .error e
      | .ok d => consE (.vdict d) (generalEntries st rest)
    else if k == "layout_callout" then
      match asRefId (some v) with
      | .error e => .error e
      | .ok cid =>
        match get_callout_data st cid with
        | .error e => .error e
        | .ok d => consE (.vdict d) (generalEntries st rest)
    else generalEntries st rest

/-- The pageVersatile branch of get_content: dispatch on the content type
of each item of the content sequence; unrecognized tags are skipped. -/
def versEntries (st : St) : List String → Except Err (List Val)
  | [] => .ok []
  | i :: rest =>
    match lookupE st i with
    | .error e => .error e
    | .ok item =>
      if item.contentType == "componentHero" then
        match get_hero_data st i with
        | .error e => .error e
        | .ok d => consE (.vdict d) (versEntries st rest)
      else if item.contentType == "layoutCallout" then
        match get_callout_data st i with
        | .error e => .error e
        | .ok d => consE (.vdict d) (versEntries st rest)
      else versEntries st rest

/-- The pageHome branch of get_content: hero, section heading, callout and
the 2-, 3- and 5-card layouts are recognized; other tags are skipped. -/
def homeEntries (st : St) : List String → Except Err (List Val)
  | [] => .ok []
  | i :: rest =>
    match lookupE st i with
    | .error e => .error e
    | .ok item =>
      if item.contentType == "componentHero" then
        match get_hero_data st i with
        | .error e => .error e
        | .ok d => consE (.vdict d) (homeEntries st rest)
      else if item.contentType == "componentSectionHeading" then
        match get_section_heading_data st i with
        | .error e => .error e
        | .ok d => consE (.vdict d) (homeEntries st rest)
      else if item.contentType == "layoutCallout" then
        match get_callout_data st i with
        | .error e => .error e
        | .ok d => consE (.vdict d) (homeEntries st rest)
      else if item.contentType == "layout2Cards" then
        match get_card_layout_data st i with
        | .error e => .error e
        | .ok d => consE (.vdict d) (homeEntries st rest)
      else if item.contentType == "layout3Cards" then
        match get_card_layout_data st i with
        | .error e => .error e
        | .ok d => consE (.vdict d) (homeEntries st rest)
      else if item.contentType == "layout5Cards" then
        match get_card_layout_data st i with
        | .error e => .error e
        | .ok d => consE (.vdict d) (homeEntries st rest)
      else homeEntries st rest

/-- Dispatch over the three page archetypes; an unrecognized archetype
yields an empty entries list. -/
def contentEntries (st : St) (page_type : String) (fields : Dict) : Except Err (List Val) :=
  if page_type == "pageGeneral" then generalEntries st fields
  else if page_type == "pageVersatile" then
    match asRefIds (getV fields "content") with
    | .error e => .error e
    | .ok ids => versEntries st ids
  else if page_type == "pageHome" then
    match asRefIds (getV fields "content") with
    | .error e => .error e
    | .ok ids => homeEntries st ids
  else .ok []

/-- The expression page_id["page_type"] of get_content line 172: page_id is
the page id string, and subscripting a Python str with a str key raises
TypeError unconditionally. -/
def pyStrSubscript (_s _k : String) : Except Err String :=
  .error .typeError

/-- ContentfulPage.get_content(page_id), line for line: fetch the page
data, then evaluate page_id["page_type"] (the source subscripts the id
string, not the fetched page_data), then dispatch on the archetype. -/
def get_content (st : St) (page_id : String) : Except Err Dict :=
  match get_page_data st page_id with
  | .error e => .error e
  | .ok page_data =>
    match pyStrSubscript page_id "page_type" with
    | .error e => .error e
    | .ok page_type =>
      match getV page_data "fields" with
      | some (.vdict fields) =>
        match contentEntries st page_type fields with
        | .error e => .error e
        | .ok entries =>
          match getV page_data "info" with
          | some info =>
            .ok [("page_type", .str page_type), ("info", info),
                 ("entries", .vlist entries)]
          | none => .error .keyError
      | _ => .error .keyError

-- A concrete example world: one entry per content type used by the
-- extraction functions, exercised by the evaluation theorems and by the
-- witnesses below.

def cta1E : Entry :=
  ⟨"componentCta", [("label", .str "Go"), ("action", .str "/go")]⟩

def hero1E : Entry :=
  ⟨"componentHero",
   [("image", .image "//img.example/hero.png"),
    ("body", .richText "herobody"),
    ("heading", .str "Hero heading"),
    ("theme", .str "Dark"),
    ("cta", .ref "cta1")]⟩

def heading1E : Entry :=
  ⟨"componentSectionHeading", [("heading", .str "Section")]⟩

def cc1E : Entry :=
  ⟨"componentCallout", [("heading", .str "Callout heading")]⟩

def co1E : Entry :=
  ⟨"layoutCallout", [("component_callout", .ref "cc1"), ("theme", .str "Dark")]⟩

/-- A callout content entry whose body field is present but null. -/
def cc2E : Entry :=
  ⟨"componentCallout", [("heading", .str "Callout two"), ("body", .null)]⟩

def co2E : Entry :=
  ⟨"layoutCallout", [("component_callout", .ref "cc2"), ("theme", .str "Light")]⟩

def c1E : Entry :=
  ⟨"componentCard", [("heading", .str "Card one"), ("image", .image "//img.example/c1.png")]⟩

def c2E : Entry :=
  ⟨"componentCard", [("image", .image "//img.example/c2.png"), ("body", .richText "c2body")]⟩

/-- A card entry whose body field is present but null. -/
def c3E : Entry :=
  ⟨"componentCard", [("body", .null), ("image", .image "//img.example/c3.png")]⟩

def lc1E : Entry :=
  ⟨"layoutLargeCard", [("image", .image "//img.example/lc.png"), ("card", .ref "c1")]⟩

def l5E : Entry :=
  ⟨"layout5Cards",
   [("aspect_ratio", .str "3:2"), ("large_card", .ref "lc1"),
    ("content", .refList ["c2"])]⟩

def l3E : Entry :=
  ⟨"layout3Cards", [("aspect_ratio", .str "16:9"), ("content", .refList ["c1", "c2"])]⟩

def pv1E : Entry :=
  ⟨"pageVersatile",
   [("preview_title", .str "Versatile title"),
    ("preview_blurb", .str "Versatile blurb"),
    ("slug", .str "versatile"),
    ("content", .refList ["hero1", "co1"])]⟩

def home1E : Entry :=
  ⟨"pageHome",
   [("preview_title", .str "Home title"),
    ("preview_blurb", .str "Home blurb"),
    ("content", .refList ["hero1", "l3"])]⟩

def exSt : St :=
  [("cta1", cta1E), ("hero1", hero1E), ("heading1", heading1E),
   ("cc1", cc1E), ("co1", co1E), ("cc2", cc2E), ("co2", co2E),
   ("c1", c1E), ("c2", c2E), ("c3", c3E),
   ("lc1", lc1E), ("l5", l5E), ("l3", l3E),
   ("pv1", pv1E), ("home1", home1E)]

-- Concrete component outputs of the example world, used by the closed
-- evaluation theorems and witnesses.

def exCtaData : Dict :=
  [("component", .str "componentCta"), ("label", .str "Go"),
   ("action", .str "/go"), ("size", .str "mzp-t-xl"),
   ("theme", .str "mzp-t-primary"), ("include_cta", .bool true)]

def exHeroData : Dict :=
  [("component", .str "hero"), ("theme_class", .str "mzp-t-dark"),
   ("product_class", .str "mzp-t-product-"), ("title", .str "Hero heading"),
   ("tagline", .null), ("body", .str "<p>herobody</p>"),
   ("image", .str "https://img.example/hero.png"), ("image_position", .null),
   ("image_class", .str ""), ("cta", .vdict exCtaData)]

def exCalloutData : Dict :=
  [("component", .str "callout"), ("theme_class", .str "mzp-t-dark"),
   ("product_class", .str "mzp-t-product-"), ("title", .str "Callout heading"),
   ("body", .str ""), ("cta", .vdict [("include_cta", .bool false)])]

def exCallout2Data : Dict :=
  [("component", .str "callout"), ("theme_class", .str ""),
   ("product_class", .str "mzp-t-product-"), ("title", .str "Callout two"),
   ("body", .str ""), ("cta", .vdict [("include_cta", .bool false)])]

def exCardC3Data : Dict :=
  [("component", .str "card"), ("heading", .null),
   ("tag", .null), ("link", .null), ("body", .str ""),
   ("aspect_ratio", .str "mzp-has-aspect-1-1"),
   ("highres_image_url", .str "https://img.example/c3.png?w=800&h=800&fit=fill&f=faces"),
   ("image_url", .str "https://img.example/c3.png?w=800&h=800&fit=fill&f=faces")]

def exCardC1Data : Dict :=
  [("component", .str "card"), ("heading", .str "Card one"),
   ("tag", .null), ("link", .null), ("body", .str ""),
   ("aspect_ratio", .str "mzp-has-aspect-16-9"),
   ("highres_image_url", .str "https://img.example/c1.png?w=800&h=450&fit=fill&f=faces"),
   ("image_url", .str "https://img.example/c1.png?w=800&h=450&fit=fill&f=faces")]

def exCardC2Data : Dict :=
  [("component", .str "card"), ("heading", .null),
   ("tag", .null), ("link", .null), ("body", .str "<p>c2body</p>"),
   ("aspect_ratio", .str "mzp-has-aspect-3-2"),
   ("highres_image_url", .str "https://img.example/c2.png?w=800&h=533&fit=fill&f=faces"),
   ("image_url", .str "https://img.example/c2.png?w=800&h=533&fit=fill&f=faces")]

def exLargeCardData : Dict :=
  [("component", .str "large_card"), ("heading", .str "Card one"),
   ("tag", .null), ("link", .null), ("body", .str ""),
   ("aspect_ratio", .str "mzp-has-aspect-16-9"),
   ("highres_image_url", .str "https://img.example/lc.png?w=1860&h=1046&fit=fill&f=faces"),
   ("image_url", .str "https://img.example/lc.png?w=1860&h=1046&fit=fill&f=faces")]

def exPv1Data : Dict :=
  [("page_type", .str "pageVersatile"),
   ("info", .vdict
     [("title", .str "Versatile title"), ("blurb", .str "Versatile blurb"),
      ("slug", .str "versatile")]),
   ("fields", .vdict
     [("preview_title", .str "Versatile title"),
      ("preview_blurb", .str "Versatile blurb"),
      ("slug", .str "versatile"),
      ("content", .refList ["hero1", "co1"])])]

-- Association list lemmas shared by several proofs.

theorem getV_setV_self (d : Dict) (k : String) (v : Val) :
    getV (setV d k v) k = some v := by
  induction d with
  | nil => simp [setV, getV]
  | cons p rest ih =>
    obtain ⟨k2, v2⟩ := p
    by_cases h : k2 == k
    · simp [setV, h, getV]
    · simp [setV, h, getV, ih]

theorem getV_setV_ne (d : Dict) (k k2 : String) (v : Val) (h : k2 ≠ k) :
    getV (setV d k v) k2 = getV d k2 := by
  induction d with
  | nil =>
    have h5 : ¬k = k2 := fun e => h (Eq.symm e)
    simp [setV, getV, h5]
  | cons p rest ih =>
    obtain ⟨k3, v3⟩ := p
    by_cases h2 : k3 == k
    · have h3 : (k3 == k2) = false := by
        simp only [beq_iff_eq] at h2
        subst h2
        exact beq_eq_false_iff_ne.mpr (fun e => h e.symm)
      simp [setV, h2, getV, h3]
    · by_cases h4 : k3 == k2
      · simp [setV, h2, getV, h4]
      · simp [setV, h2, getV, h4, ih]

-- Shape lemmas: whenever an extraction succeeds, its output dictionary has
-- the stated head fields. These drive the invariant claims.

theorem card_ok_urls {st : St} {cid : String} {asp : Option Val} {d : Dict}
    (h : get_card_data st cid asp = .ok d) :
    getV d "highres_image_url" = getV d "image_url" := by
  unfold get_card_data at h
  split at h
  · exact Except.noConfusion h
  · split at h
    · exact Except.noConfusion h
    · split at h
      · injection h with h2
        subst h2
        rfl
      · exact Except.noConfusion h

theorem large_ok_shape {st : St} {lid cid : String} {d : Dict}
    (h : get_large_card_data st lid cid = .ok d) :
    ∃ c u, get_card_data st cid (some (.str "16:9")) = .ok c ∧
      d = setV (setV (setV c "component" (.str "large_card"))
            "highres_image_url" (.str u)) "image_url" (.str u) := by
  unfold get_large_card_data at h
  split at h
  · exact Except.noConfusion h
  · split at h
    · split at h
      · exact Except.noConfusion h
      · rename_i cd heq
        injection h with h2
        subst h2
        exact ⟨cd, _, heq, rfl⟩
    · exact Except.noConfusion h

theorem large_ok_urls {st : St} {lid cid : String} {d : Dict}
    (h : get_large_card_data st lid cid = .ok d) :
    getV d "highres_image_url" = getV d "image_url" := by
  obtain ⟨c, u, _, h3⟩ := large_ok_shape h
  subst h3
  rw [getV_setV_self, getV_setV_ne _ _ _ _ (by decide), getV_setV_self]

theorem hero_ok_component {st : St} {i : String} {d : Dict}
    (h : get_hero_data st i = .ok d) : getV d "component" = some (.str "hero") := by
  unfold get_hero_data at h
  split at h
  · exact Except.noConfusion h
  · split at h
    · exact Except.noConfusion h
    · split at h
      · exact Except.noConfusion h
      · split at h
        · exact Except.noConfusion h
        · injection h with h2
          subst h2
          rfl
    · exact Except.noConfusion h

theorem heading_ok_component {st : St} {i : String} {d : Dict}
    (h : get_section_heading_data st i = .ok d) :
    getV d "component" = some (.str "sectionHeading") := by
  unfold get_section_heading_data at h
  split at h
  · exact Except.noConfusion h
  · injection h with h2
    subst h2
    rfl

theorem callout_ok_component {st : St} {i : String} {d : Dict}
    (h : get_callout_data st i = .ok d) :
    getV d "component" = some (.str "callout") := by
  unfold get_callout_data at h
  split at h
  · exact Except.noConfusion h
  · split at h
    · exact Except.noConfusion h
    · split at h
      · exact Except.noConfusion h
      · split at h
        · exact Except.noConfusion h
        · split at h
          · exact Except.noConfusion h
          · injection h with h2
            subst h2
            rfl

theorem card_ok_component {st : St} {i : String} {asp : Option Val} {d : Dict}
    (h : get_card_data st i asp = .ok d) :
    getV d "component" = some (.str "card") := by
  unfold get_card_data at h
  split at h
  · exact Except.noConfusion h
  · split at h
    · exact Except.noConfusion h
    · split at h
      · injection h with h2
        subst h2
        rfl
      · exact Except.noConfusion h

theorem large_ok_component {st : St} {lid cid : String} {d : Dict}
    (h : get_large_card_data st lid cid = .ok d) :
    getV d "component" = some (.str "large_card") := by
  obtain ⟨c, u, _, h3⟩ := large_ok_shape h
  subst h3
  rw [getV_setV_ne _ _ _ _ (by decide), getV_setV_ne _ _ _ _ (by decide),
    getV_setV_self]

theorem layout_ok_component {st : St} {i : String} {d : Dict}
    (h : get_card_layout_data st i = .ok d) :
    getV d "component" = some (.str "cardLayout") := by
  unfold get_card_layout_data at h
  split at h
  · exact Except.noConfusion h
  · split at h
    · exact Except.noConfusion h
    · split at h
      · exact Except.noConfusion h
      · split at h
        · exact Except.noConfusion h
        · injection h with h2
          subst h2
          rfl

theorem text_ok_component {v : Option Val} {d : Dict}
    (h : get_text_data v = .ok d) : getV d "component" = some (.str "text") := by
  unfold get_text_data at h
  split at h
  · exact Except.noConfusion h
  · injection h with h2
    subst h2
    rfl

theorem cta_ok_component {st : St} {c : Option Val} {d : Dict}
    (h : get_cta_data st c = .ok d) :
    (getV d "component").isSome = true ∨ d = [("include_cta", .bool false)] := by
  unfold get_cta_data at h
  split at h
  · split at h
    · exact Except.noConfusion h
    · split at h
      · exact Except.noConfusion h
      · injection h with h2
        subst h2
        exact Or.inl rfl
  · injection h with h2
    subst h2
    exact Or.inr rfl

theorem dget_miss (tbl : List (String × String)) (a : String)
    (h : ∀ p ∈ tbl, ¬p.1 = a) : dget tbl a = none := by
  have h2 : tbl.find? (fun p => p.1 == a) = none :=
    List.find?_eq_none.mpr (by intro p hp; simpa using h p hp)
  simp [dget, h2]

theorem amGet_miss (a : String)
    (h : ∀ p ∈ ASPECT_MULTIPLIER, ¬p.1 = a) : amGet (some (.str a)) = (0, 1) := by
  have h2 : ASPECT_MULTIPLIER.find? (fun p => p.1 == a) = none :=
    List.find?_eq_none.mpr (by intro p hp; simpa using h p hp)
  simp [amGet, h2]

theorem bodyRender_none : bodyRender none = Except.ok "" := rfl

theorem bodyRender_null : bodyRender (some .null) = Except.ok "" := rfl

theorem mapCards_forall2 {st : St} {asp : Option Val} :
    ∀ {ids : List String} {ds : List Dict}, mapCards st asp ids = .ok ds →
      List.Forall₂ (fun i d => get_card_data st i asp = Except.ok d) ids ds := by
  intro ids
  induction ids with
  | nil =>
    intro ds h
    unfold mapCards at h
    injection h with h2
    subst h2
    exact List.Forall₂.nil
  | cons i rest ih =>
    intro ds h
    unfold mapCards at h
    split at h
    · exact Except.noConfusion h
    · rename_i d heq
      split at h
      · exact Except.noConfusion h
      · rename_i ds2 heq2
        injection h with h2
        subst h2
        exact List.Forall₂.cons heq (ih heq2)

-- Claim theorems.

/-- Claim C1 (code bug): on the example world, whose page home1 is a
pageHome entry with content exactly one componentHero followed by one
layout3Cards entry, get_content does not return the two component outputs:
it fails with a TypeError, because line 172 of the source evaluates the
subscript page_id with key page_type on the page id string instead of on
the fetched page_data mapping. -/
theorem C1_get_content_raises :
    get_content exSt "home1" = Except.error Err.typeError := rfl

/-- Claim C2 counterexample: on the example world, which holds the
pageVersatile entry pv1 and also the pageHome entry home1,
get_all_page_data returns only the pv1 data, and that data is the full
page data of get_page_data, carrying the complete fields mapping next to
info rather than only the summary info. -/
theorem C2_only_versatile_and_full_fields :
    get_all_page_data exSt = Except.ok [exPv1Data] := rfl

/-- Claim C2 amended: get_all_page_data lists the entries of content type
pageVersatile specifically, and for each one returns through get_page_data
the full page data: page_type, info, and the complete fields mapping. -/
theorem C2_all_page_data (st : St) :
    (∀ id e, (id, e) ∈ st → e.contentType = "pageVersatile" → id ∈ pagesList st) ∧
    (∀ id e d, lookupE st id = .ok e → get_page_data st id = .ok d →
      getV d "page_type" = some (.str e.contentType) ∧
      getV d "fields" = some (.vdict e.fields) ∧
      ∃ info, getV d "info" = some (.vdict info)) := by
  constructor
  · intro id e hmem htype
    simp only [pagesList, List.mem_map, List.mem_filter]
    exact ⟨(id, e), ⟨hmem, by simp [htype]⟩, rfl⟩
  · intro id e d h1 h2
    unfold get_page_data at h2
    rw [h1] at h2
    dsimp only at h2
    split at h2
    · exact Except.noConfusion h2
    · rename_i info heq
      injection h2 with h3
      subst h3
      exact ⟨rfl, rfl, info, rfl⟩

/-- Claim C2 witness: the pv1 entry of the example world is listed, and its
page data carries the page_type field of the full page data. -/
theorem C2_witness :
    "pv1" ∈ pagesList exSt ∧
    getV exPv1Data "fields" = some (.vdict pv1E.fields) := by
  refine ⟨(C2_all_page_data exSt).1 "pv1" pv1E (by simp [exSt]) rfl, ?_⟩
  exact ((C2_all_page_data exSt).2 "pv1" pv1E exPv1Data rfl rfl).2.1

/-- Claim C3 counterexample: text extraction on an absent rich-text body,
and likewise on a null one, does not yield an empty body; the renderer is
invoked on the value and fails. -/
theorem C3_text_unguarded :
    get_text_data none = Except.error Err.typeError ∧
    get_text_data (some .null) = Except.error Err.typeError := ⟨rfl, rfl⟩

/-- Claim C3 amended: for callout and card extraction, a source rich-text
body field that is absent or holds null yields a body equal to the empty
string without invoking the renderer, but text extraction passes its
value to the renderer unguarded, so an absent or null value is a renderer
failure. -/
theorem C3_body_guards (st : St) (coId ccId cId : String) (cfg cc card : Entry)
    (h1 : lookupE st coId = .ok cfg)
    (h2 : getV cfg.fields "component_callout" = some (.ref ccId))
    (h3 : lookupE st ccId = .ok cc)
    (h4 : getV cc.fields "body" = none ∨ getV cc.fields "body" = some .null)
    (h5 : lookupE st cId = .ok card)
    (h6 : getV card.fields "body" = none ∨ getV card.fields "body" = some .null) :
    (∀ d, get_callout_data st coId = .ok d → getV d "body" = some (.str "")) ∧
    (∀ asp d, get_card_data st cId asp = .ok d → getV d "body" = some (.str "")) ∧
    get_text_data none = .error .typeError ∧
    get_text_data (some .null) = .error .typeError := by
  refine ⟨?_, ?_, rfl, rfl⟩
  · intro d h
    unfold get_callout_data at h
    rw [h1] at h
    dsimp only at h
    rw [h2] at h
    dsimp only [asRefId] at h
    rw [h3] at h
    dsimp only at h
    rcases h4 with h4 | h4
    · rw [h4, bodyRender_none] at h
      dsimp only at h
      split at h
      · exact Except.noConfusion h
      · injection h with h7
        subst h7
        rfl
    · rw [h4, bodyRender_null] at h
      dsimp only at h
      split at h
      · exact Except.noConfusion h
      · injection h with h7
        subst h7
        rfl
  · intro asp d h
    unfold get_card_data at h
    rw [h5] at h
    dsimp only at h
    rcases h6 with h6 | h6
    · rw [h6, bodyRender_none] at h
      dsimp only at h
      split at h
      · injection h with h7
        subst h7
        rfl
      · exact Except.noConfusion h
    · rw [h6, bodyRender_null] at h
      dsimp only at h
      split at h
      · injection h with h7
        subst h7
        rfl
      · exact Except.noConfusion h

/-- Claim C3 witness: on the example world, the callout whose content entry
cc1 has an absent body and the card c1 with an absent body extract with an
empty body string, and so do the callout content cc2 and the card c3 whose
body fields hold null. -/
theorem C3_witness :
    getV exCalloutData "body" = some (.str "") ∧
    getV exCardC1Data "body" = some (.str "") ∧
    getV exCallout2Data "body" = some (.str "") ∧
    getV exCardC3Data "body" = some (.str "") := by
  have h := C3_body_guards exSt "co1" "cc1" "c1" co1E cc1E c1E
    rfl rfl rfl (Or.inl rfl) rfl (Or.inl rfl)
  have h2 := C3_body_guards exSt "co2" "cc2" "c3" co2E cc2E c3E
    rfl rfl rfl (Or.inr rfl) rfl (Or.inr rfl)
  exact ⟨h.1 exCalloutData rfl, h.2.1 (some (.str "16:9")) exCardC1Data rfl,
    h2.1 exCallout2Data rfl, h2.2.1 (some (.str "1:1")) exCardC3Data rfl⟩

/-- Claim C4 counterexample: the output the CTA extraction produces for an
absent CTA reference carries no component key. -/
theorem C4_absent_cta_no_component :
    get_cta_data exSt none = Except.ok [("include_cta", Val.bool false)] ∧
    getV [("include_cta", Val.bool false)] "component" = none := ⟨rfl, rfl⟩

/-- Claim C4 amended: every component output of the hero, section heading,
callout, card, large card, card layout and text extractions carries a
component key, and a CTA extraction output either carries one or is the
absent-CTA mapping with include_cta false and nothing else. -/
theorem C4_component_key (st : St) :
    (∀ i d, get_hero_data st i = .ok d → (getV d "component").isSome = true) ∧
    (∀ i d, get_section_heading_data st i = .ok d → (getV d "component").isSome = true) ∧
    (∀ i d, get_callout_data st i = .ok d → (getV d "component").isSome = true) ∧
    (∀ i asp d, get_card_data st i asp = .ok d → (getV d "component").isSome = true) ∧
    (∀ i j d, get_large_card_data st i j = .ok d → (getV d "component").isSome = true) ∧
    (∀ i d, get_card_layout_data st i = .ok d → (getV d "component").isSome = true) ∧
    (∀ v d, get_text_data v = .ok d → (getV d "component").isSome = true) ∧
    (∀ c d, get_cta_data st c = .ok d →
      (getV d "component").isSome = true ∨ d = [("include_cta", .bool false)]) := by
  refine ⟨?_, ?_, ?_, ?_, ?_, ?_, ?_, ?_⟩
  · intro i d h; rw [hero_ok_component h]; rfl
  · intro i d h; rw [heading_ok_component h]; rfl
  · intro i d h; rw [callout_ok_component h]; rfl
  · intro i asp d h; rw [card_ok_component h]; rfl
  · intro i j d h; rw [large_ok_component h]; rfl
  · intro i d h; rw [layout_ok_component h]; rfl
  · intro v d h; rw [text_ok_component h]; rfl
  · intro c d h; exact cta_ok_component h

/-- Claim C4 witness: the hero, large card and absent-CTA outputs of the
example world instantiate the amended claim. -/
theorem C4_witness :
    (getV exHeroData "component").isSome = true ∧
    (getV exLargeCardData "component").isSome = true ∧
    ((getV [("include_cta", Val.bool false)] "component").isSome = true ∨
      ([("include_cta", Val.bool false)] : Dict) = [("include_cta", Val.bool false)]) :=
  ⟨(C4_component_key exSt).1 "hero1" exHeroData rfl,
   (C4_component_key exSt).2.2.2.2.1 "lc1" "c1" exLargeCardData rfl,
   (C4_component_key exSt).2.2.2.2.2.2.2 none [("include_cta", Val.bool false)] rfl⟩

theorem pyRoundFrac_eq_pyRound (n d : ℤ) (hd : 0 < d) :
    pyRoundFrac n d = pyRound ((n : ℚ) / (d : ℚ)) := by
  have hdq : (0 : ℚ) < (d : ℚ) := by exact_mod_cast hd
  have hfe : Int.fdiv n d = n / d := Int.fdiv_eq_ediv n (le_of_lt hd)
  have hrep := Int.emod_add_ediv n d
  have hr0 : 0 ≤ n % d := Int.emod_nonneg n (ne_of_gt hd)
  have hrd : n % d < d := Int.emod_lt_of_pos n hd
  have hfloor : Int.floor ((n : ℚ) / (d : ℚ)) = n / d := by
    rw [Int.floor_eq_iff]
    constructor
    · rw [le_div_iff₀ hdq]
      have : (n / d) * d ≤ n := by nlinarith [hrep, hr0]
      exact_mod_cast this
    · rw [div_lt_iff₀ hdq]
      have : n < (n / d + 1) * d := by nlinarith [hrep, hrd]
      exact_mod_cast this
  have hsub : (n : ℚ) / (d : ℚ) - ((n / d : ℤ) : ℚ) = ((n - (n / d) * d : ℤ) : ℚ) / (d : ℚ) := by
    field_simp
    ring
  have hiff1 : ((n : ℚ) / (d : ℚ) - ((n / d : ℤ) : ℚ) < 1 / 2) ↔
      (2 * (n - (n / d) * d) < d) := by
    rw [hsub, div_lt_div_iff₀ hdq two_pos]
    rw [show ((n - (n / d) * d : ℤ) : ℚ) * 2 = ((2 * (n - (n / d) * d) : ℤ) : ℚ) by
      push_cast; ring]
    rw [show (1 : ℚ) * (d : ℚ) = ((d : ℤ) : ℚ) by ring]
    exact_mod_cast Iff.rfl
  have hiff2 : (1 / 2 < (n : ℚ) / (d : ℚ) - ((n / d : ℤ) : ℚ)) ↔
      (d < 2 * (n - (n / d) * d)) := by
    rw [hsub, div_lt_div_iff₀ two_pos hdq]
    rw [show ((n - (n / d) * d : ℤ) : ℚ) * 2 = ((2 * (n - (n / d) * d) : ℤ) : ℚ) by
      push_cast; ring]
    rw [show (1 : ℚ) * (d : ℚ) = ((d : ℤ) : ℚ) by ring]
    exact_mod_cast Iff.rfl
  unfold pyRoundFrac pyRound
  rw [hfloor, hfe]
  rw [if_congr hiff1.symm rfl rfl]
  rw [if_congr hiff2.symm rfl rfl]

/-- Claim C5: large-card extraction equals ordinary card extraction of the
referenced card at aspect 16:9 with exactly three fields overwritten in
place: component set to large_card, and both image urls re-derived from
the layout-level image at width 1860 and aspect 16:9. -/
theorem C5_large_card_refinement (st : St) (card_layout_id card_id : String)
    (layout : Entry) (img : String) (c : Dict)
    (h1 : lookupE st card_layout_id = .ok layout)
    (h2 : getV layout.fields "image" = some (.image img))
    (h3 : get_card_data st card_id (some (.str "16:9")) = .ok c) :
    get_large_card_data st card_layout_id card_id =
      .ok (setV (setV (setV c "component" (.str "large_card"))
            "highres_image_url" (.str (_get_image_url img 1860 (some (.str "16:9")))))
            "image_url" (.str (_get_image_url img 1860 (some (.str "16:9"))))) := by
  unfold get_large_card_data
  rw [h1]
  dsimp only
  rw [h2]
  dsimp only
  rw [h3]

/-- Claim C5 witness: the large card of the example world is the c1 card at
aspect 16:9 with the three overwritten fields. -/
theorem C5_witness :
    get_large_card_data exSt "lc1" "c1" =
      Except.ok (setV (setV (setV exCardC1Data "component" (.str "large_card"))
        "highres_image_url"
        (.str (_get_image_url "//img.example/lc.png" 1860 (some (.str "16:9")))))
        "image_url"
        (.str (_get_image_url "//img.example/lc.png" 1860 (some (.str "16:9"))))) :=
  C5_large_card_refinement exSt "lc1" "c1" lc1E "//img.example/lc.png"
    exCardC1Data rfl rfl rfl

/-- Claim C6: for a layout whose content-type tag is layout5Cards, the
extracted cards list is the large card first, then one card per entry of
the content sequence in source order, each extracted at the aspect ratio
configured on the layout. -/
theorem C6_five_cards (st : St) (layout_id lc_id c_id : String)
    (config lc : Entry) (ids : List String) (large : Dict) (rest : List Dict)
    (h1 : lookupE st layout_id = .ok config)
    (h2 : config.contentType = "layout5Cards")
    (h3 : getV config.fields "large_card" = some (.ref lc_id))
    (h4 : lookupE st lc_id = .ok lc)
    (h5 : getV lc.fields "card" = some (.ref c_id))
    (h6 : getV config.fields "content" = some (.refList ids))
    (h7 : get_large_card_data st lc_id c_id = .ok large)
    (h8 : mapCards st (getV config.fields "aspect_ratio") ids = .ok rest) :
    get_card_layout_data st layout_id =
      .ok [("component", .str "cardLayout"),
           ("layout_class", .str "mzp-l-card-hero"),
           ("aspect_ratio", optVal (getV config.fields "aspect_ratio")),
           ("cards", .vlist (.vdict large :: rest.map Val.vdict))] ∧
    List.Forall₂
      (fun i d => get_card_data st i (getV config.fields "aspect_ratio") = Except.ok d)
      ids rest := by
  refine ⟨?_, mapCards_forall2 h8⟩
  unfold get_card_layout_data
  rw [h1]
  dsimp only
  unfold largeCardFirst
  rw [h2]
  simp only [beq_self_eq_true, if_true]
  rw [h3]
  dsimp only [asRefId, refFields]
  rw [h4]
  dsimp only
  rw [h5]
  dsimp only
  rw [h7]
  dsimp only
  rw [h6]
  dsimp only [asRefIds]
  rw [h8]
  dsimp only
  rfl

/-- Claim C6 witness: the l5 layout of the example world yields the large
card first, then the c2 card at the configured aspect 3:2. -/
theorem C6_witness :
    get_card_layout_data exSt "l5" =
      Except.ok [("component", .str "cardLayout"),
        ("layout_class", .str "mzp-l-card-hero"),
        ("aspect_ratio", .str "3:2"),
        ("cards", .vlist [.vdict exLargeCardData, .vdict exCardC2Data])] ∧
    List.Forall₂
      (fun i d => get_card_data exSt i (some (.str "3:2")) = Except.ok d)
      ["c2"] [exCardC2Data] :=
  C6_five_cards exSt "l5" "lc1" "c1" l5E lc1E ["c2"] exLargeCardData
    [exCardC2Data] rfl rfl rfl rfl rfl rfl rfl rfl

/-- Claim C7: CTA extraction with an absent reference returns exactly the
include_cta false mapping for every world, so no entry fetch can be
involved, and with a present reference resolving to an entry it returns
include_cta true with label, action, and the fixed size and theme
strings. -/
theorem C7_cta_contract (st : St) (cta_id : String) (e : Entry)
    (h : lookupE st cta_id = .ok e) :
    get_cta_data st none = .ok [("include_cta", .bool false)] ∧
    get_cta_data st (some (.ref cta_id)) =
      .ok [("component", .str e.contentType),
           ("label", optVal (getV e.fields "label")),
           ("action", optVal (getV e.fields "action")),
           ("size", .str "mzp-t-xl"),
           ("theme", .str "mzp-t-primary"),
           ("include_cta", .bool true)] := by
  refine ⟨rfl, ?_⟩
  unfold get_cta_data
  simp only [truthy, if_true]
  dsimp only [asRefId]
  rw [h]

/-- Claim C7 witness: the cta1 entry of the example world instantiates both
branches of the CTA contract. -/
theorem C7_witness :
    get_cta_data exSt none = Except.ok [("include_cta", Val.bool false)] ∧
    get_cta_data exSt (some (.ref "cta1")) = Except.ok exCtaData :=
  C7_cta_contract exSt "cta1" cta1E rfl

/-- Claim C8: for every input string missing from its lookup table, each
style helper returns its empty-slug default, trailing prefix included for
the aspect-ratio, product and width helpers and the empty string for the
layout and dark-theme helpers; the helpers are total functions, so none
can raise. -/
theorem C8_style_defaults (a p w l t : String)
    (ha : a ∉ ["1:1", "3:2", "16:9"])
    (hp : p ∉ ["Firefox", "Firefox Beta", "Firefox Developer", "Firefox Nightly"])
    (hw : w ∉ ["Extra Small", "Small", "Medium", "Large", "Extra Large"])
    (hl : l ∉ ["layout2Cards", "layout3Cards", "layout4Cards", "layout5Cards"])
    (ht : t ≠ "Dark") :
    _get_aspect_ratio_class (some (.str a)) = "mzp-has-aspect-" ∧
    _get_product_class (some (.str p)) = "mzp-t-product-" ∧
    _get_width_class w = "mzp-t-content-" ∧
    _get_layout_class l = "" ∧
    _get_theme_class (some (.str t)) = "" := by
  refine ⟨?_, ?_, ?_, ?_, ?_⟩
  · have h := dget_miss ASPECT_RATIOS a
      (by intro q hq; fin_cases hq <;> intro he <;> subst he <;> simp at ha)
    simp [_get_aspect_ratio_class, dgetO, h]
  · have h := dget_miss PRODUCT_THEMES p
      (by intro q hq; fin_cases hq <;> intro he <;> subst he <;> simp at hp)
    simp [_get_product_class, dgetO, h]
  · have h := dget_miss WIDTHS w
      (by intro q hq; fin_cases hq <;> intro he <;> subst he <;> simp at hw)
    simp [_get_width_class, _get_abbr_from_width, h]
  · have h := dget_miss LAYOUT_CLASS l
      (by intro q hq; fin_cases hq <;> intro he <;> subst he <;> simp at hl)
    simp [_get_layout_class, h]
  · have h : (t == "Dark") = false := beq_eq_false_iff_ne.mpr ht
    simp [_get_theme_class, h]

/-- Claim C8 witness: the helpers at the unmapped input string zzz. -/
theorem C8_witness :
    _get_aspect_ratio_class (some (.str "zzz")) = "mzp-has-aspect-" ∧
    _get_product_class (some (.str "zzz")) = "mzp-t-product-" ∧
    _get_width_class "zzz" = "mzp-t-content-" ∧
    _get_layout_class "zzz" = "" ∧
    _get_theme_class (some (.str "zzz")) = "" :=
  C8_style_defaults "zzz" "zzz" "zzz" "zzz" "zzz" (by decide) (by decide)
    (by decide) (by decide) (by decide)

/-- Claim C9: for every integer width, the computed height is the Python
rounding of width times the multiplier, with multiplier 1 for 1:1, 0.6666
for 3:2 and 0.5625 for 16:9; any other aspect string takes the default
multiplier 0, so the height is 0 rather than an error; and width 800 at
16:9 gives height 450. -/
theorem C9_height (w : ℤ) (a : String) (ha : a ∉ ["1:1", "3:2", "16:9"]) :
    _get_height w (some (.str "1:1")) = pyRound ((w : ℚ) * 1) ∧
    _get_height w (some (.str "3:2")) = pyRound ((w : ℚ) * 0.6666) ∧
    _get_height w (some (.str "16:9")) = pyRound ((w : ℚ) * 0.5625) ∧
    _get_height w (some (.str a)) = 0 ∧
    _get_height 800 (some (.str "16:9")) = 450 := by
  refine ⟨?_, ?_, ?_, ?_, rfl⟩
  · show pyRoundFrac (w * 1) 1 = pyRound ((w : ℚ) * 1)
    rw [pyRoundFrac_eq_pyRound _ _ one_pos]
    congr 1
    push_cast
    ring
  · show pyRoundFrac (w * 6666) 10000 = pyRound ((w : ℚ) * 0.6666)
    rw [pyRoundFrac_eq_pyRound _ _ (by norm_num)]
    congr 1
    rw [show (0.6666 : ℚ) = 6666 / 10000 by norm_num]
    push_cast
    ring
  · show pyRoundFrac (w * 5625) 10000 = pyRound ((w : ℚ) * 0.5625)
    rw [pyRoundFrac_eq_pyRound _ _ (by norm_num)]
    congr 1
    rw [show (0.5625 : ℚ) = 5625 / 10000 by norm_num]
    push_cast
    ring
  · have hm := amGet_miss a
      (by intro q hq; fin_cases hq <;> intro he <;> subst he <;> simp at ha)
    show pyRoundFrac (w * (amGet (some (.str a))).1) (amGet (some (.str a))).2 = 0
    rw [hm]
    show pyRoundFrac (w * 0) 1 = 0
    rw [mul_zero]
    rfl

/-- Claim C9 witness: an unmapped aspect string gives height 0 and width
800 at aspect 16:9 gives height 450. -/
theorem C9_witness :
    _get_height 7 (some (.str "9:16")) = 0 ∧
    _get_height 800 (some (.str "16:9")) = 450 := by
  have h := C9_height 7 "9:16" (by decide)
  exact ⟨h.2.2.2.1, h.2.2.2.2⟩

/-- Claim C10: in every successful card extraction and large-card
extraction, the highres image url equals the plain image url, both being
built from the same image, width and aspect. -/
theorem C10_highres_equals_image (st : St) (cid lid : String) (asp : Option Val)
    (d d2 : Dict)
    (h1 : get_card_data st cid asp = .ok d)
    (h2 : get_large_card_data st lid cid = .ok d2) :
    getV d "highres_image_url" = getV d "image_url" ∧
    getV d2 "highres_image_url" = getV d2 "image_url" :=
  ⟨card_ok_urls h1, large_ok_urls h2⟩

/-- Claim C10 witness: the c1 card and the lc1 large card of the example
world have identical highres and plain image urls. -/
theorem C10_witness :
    getV exCardC1Data "highres_image_url" = getV exCardC1Data "image_url" ∧
    getV exLargeCardData "highres_image_url" = getV exLargeCardData "image_url" :=
  C10_highres_equals_image exSt "c1" "lc1" (some (.str "16:9"))
    exCardC1Data exLargeCardData rfl rfl
